import Mathlib

-- Shallow embedding of the minimax_speech client library
-- (src/minimax_speech: common_models.py, tts_models.py, voice_clone_models.py,
-- voice_query_models.py, file_upload_models.py, config.py, client.py,
-- async_client.py). Pure data and control flow are translated directly;
-- the HTTP transport is abstracted as a function from the dispatched
-- request specification to a transport result. Python's unicode-aware
-- str.isalpha / str.isdigit / str.strip are modelled by Lean's ASCII
-- Char.isAlpha / Char.isDigit / Char.isWhitespace; no claim depends on
-- non-ASCII classification.

-- ===== JSON values (the decoded result of response.json()) =====

inductive JsonVal where
  | null : JsonVal
  | bool (b : Bool) : JsonVal
  | num (q : Rat) : JsonVal
  | str (s : String) : JsonVal
  | arr (xs : List JsonVal) : JsonVal
  | obj (fields : List (String × JsonVal)) : JsonVal

def lookupField : List (String × JsonVal) → String → Option JsonVal
  | [], _ => none
  | (k, v) :: rest, key => if k = key then some v else lookupField rest key

def JsonVal.getField : JsonVal → String → Option JsonVal
  | .obj fs, key => lookupField fs key
  | _, _ => none

-- Leaf decoders, mirroring pydantic's field coercion for the field types
-- that occur in this repository's models. A JSON number stands for an
-- int exactly when its denominator is 1.

def getStr : JsonVal → Except String String
  | .str s => .ok s
  | _ => .error "Input should be a valid string"

def getInt : JsonVal → Except String Int
  | .num q => if q.den = 1 then .ok q.num else .error "Input should be a valid integer"
  | _ => .error "Input should be a valid integer"

def getRat : JsonVal → Except String Rat
  | .num q => .ok q
  | _ => .error "Input should be a valid number"

def getBool : JsonVal → Except String Bool
  | .bool b => .ok b
  | _ => .error "Input should be a valid boolean"

def getOptStr : JsonVal → Except String (Option String)
  | .null => .ok none
  | .str s => .ok (some s)
  | _ => .error "Input should be a valid string"

def getStrList : JsonVal → Except String (List String)
  | .arr xs => xs.mapM getStr
  | _ => .error "Input should be a valid list"

-- Required field of an object: missing key is a validation error, as in
-- pydantic models whose fields are declared with Field(...).
def reqField (j : JsonVal) (key : String) (dec : JsonVal → Except String α) : Except String α :=
  match j.getField key with
  | some v => dec v
  | none => .error (key ++ ": Field required")

-- Field with a declared default value: a missing key yields the default.
def defField (j : JsonVal) (key : String) (dec : JsonVal → Except String α) (dflt : α) :
    Except String α :=
  match j.getField key with
  | some v => dec v
  | none => .ok dflt

-- ===== common_models.py =====

-- common_models.ValidModels: Literal["speech-02-hd", "speech-01-turbo",
-- "speech-01-hd", "speech-01-turbo"] -- the duplicate entry is in the source.
def validModels : List String :=
  ["speech-02-hd", "speech-01-turbo", "speech-01-hd", "speech-01-turbo"]

def validSr : List Int := [8000, 16000, 22050, 24000, 32000, 44100]

def validBitRate : List Int := [32000, 64000, 128000, 256000]

def validAudioFormat : List String := ["mp3", "pcm", "flac"]

def validDeleteVoiceType : List String := ["voice_generation", "voice_cloning"]

structure BaseResponse where
  status_code : Int
  status_msg : Option String
deriving Repr, DecidableEq

-- BaseResponse.is_success: `return self.status_msg == "success"`
def BaseResponse.is_success (b : BaseResponse) : Bool :=
  b.status_msg = some "success"

-- The error_mapping dict in BaseResponse.error_type, as an association list.
def error_mapping : List (Int × String) :=
  [(1000, "未知错误"),
   (1001, "超时"),
   (1002, "触发流量限制"),
   (1004, "认证失败"),
   (1039, "触发TPM流量限制"),
   (1042, "非法字符超过最大值（超过输入的10%）"),
   (2013, "输入格式无效"),
   (2039, "音色ID已经存在")]

-- Python's f-string rendering of an Optional[str]: None prints as "None".
def pyShowOptStr : Option String → String
  | none => "None"
  | some s => s

-- BaseResponse.error_type:
-- `error_mapping.get(self.status_code, "未知错误") + f": {self.status_msg}"`
def BaseResponse.error_type (b : BaseResponse) : String :=
  (error_mapping.lookup b.status_code).getD "未知错误" ++ ": " ++ pyShowOptStr b.status_msg

def BaseResponse.fromJson (j : JsonVal) : Except String BaseResponse := do
  match j with
  | .obj _ =>
    let sc ← reqField j "status_code" getInt
    let sm ← reqField j "status_msg" getOptStr
    .ok ⟨sc, sm⟩
  | _ => .error "base_resp: Input should be a valid dictionary"

-- ===== tts_models.py response models =====

-- T2AData: audio (bytes, required), status (int, default 1),
-- ced (Optional[str] declared with Field(...), i.e. required but nullable).
structure T2AData where
  audio : String
  status : Int
  ced : Option String
deriving Repr, DecidableEq

def T2AData.fromJson (j : JsonVal) : Except String T2AData := do
  match j with
  | .obj _ =>
    let audio ← reqField j "audio" getStr
    let status ← defField j "status" getInt 1
    let ced ← reqField j "ced" getOptStr
    .ok ⟨audio, status, ced⟩
  | _ => .error "data: Input should be a valid dictionary"

-- T2AExtra: all fields as declared in tts_models.py. The source field
-- named invisible_character_ratio is embedded as invisible_character_rate.
structure T2AExtra where
  audio_length : Int
  audio_sample_rate : Int
  audio_size : Int
  audio_bitrate : Int
  audio_format : String
  audio_channel : Int
  invisible_character_rate : Rat
  usage_characters : Int
deriving Repr, DecidableEq

def T2AExtra.fromJson (j : JsonVal) : Except String T2AExtra := do
  match j with
  | .obj _ =>
    let len ← reqField j "audio_length" getInt
    let sr ← defField j "audio_sample_rate" getInt 24000
    let size ← reqField j "audio_size" getInt
    let br ← defField j "audio_bitrate" getInt 168000
    let fmt ← reqField j "audio_format" getStr
    if fmt ∈ validAudioFormat then
      let ch ← reqField j "audio_channel" getInt
      if 1 ≤ ch ∧ ch ≤ 2 then
        let icr ← reqField j "invisible_character_ratio" getRat
        let uc ← reqField j "usage_characters" getInt
        .ok ⟨len, sr, size, br, fmt, ch, icr, uc⟩
      else .error "audio_channel: Input should be between 1 and 2"
    else .error "audio_format: Input should be mp3, pcm or flac"
  | _ => .error "extra_info: Input should be a valid dictionary"

-- T2AResponse: data, extra_info, trace_id, base_resp -- all required.
structure T2AResponse where
  data : T2AData
  extra_info : T2AExtra
  trace_id : String
  base_resp : BaseResponse
deriving Repr, DecidableEq

def T2AResponse.fromJson (j : JsonVal) : Except String T2AResponse := do
  match j with
  | .obj _ =>
    let d ← reqField j "data" T2AData.fromJson
    let e ← reqField j "extra_info" T2AExtra.fromJson
    let t ← reqField j "trace_id" getStr
    let b ← reqField j "base_resp" BaseResponse.fromJson
    .ok ⟨d, e, t, b⟩
  | _ => .error "Input should be a valid dictionary"

-- ===== voice_clone_models.py response models =====

structure VoiceCloneResponse where
  input_sensitive : Bool
  base_resp : BaseResponse
deriving Repr, DecidableEq

def VoiceCloneResponse.fromJson (j : JsonVal) : Except String VoiceCloneResponse := do
  match j with
  | .obj _ =>
    let s ← reqField j "input_sensitive" getBool
    let b ← reqField j "base_resp" BaseResponse.fromJson
    .ok ⟨s, b⟩
  | _ => .error "Input should be a valid dictionary"

structure VoiceDeleteResponse where
  voice_id : String
  created_time : String
  base_resp : BaseResponse
deriving Repr, DecidableEq

def VoiceDeleteResponse.fromJson (j : JsonVal) : Except String VoiceDeleteResponse := do
  match j with
  | .obj _ =>
    let v ← reqField j "voice_id" getStr
    let c ← reqField j "created_time" getStr
    let b ← reqField j "base_resp" BaseResponse.fromJson
    .ok ⟨v, c, b⟩
  | _ => .error "Input should be a valid dictionary"

-- ===== file_upload_models.py response models =====

structure FileInfo where
  file_id : Int
  bytes : Int
  created_at : Int
  filename : String
  purpose : String
deriving Repr, DecidableEq

def FileInfo.fromJson (j : JsonVal) : Except String FileInfo := do
  match j with
  | .obj _ =>
    let fid ← reqField j "file_id" getInt
    let by_ ← reqField j "bytes" getInt
    let ca ← reqField j "created_at" getInt
    let fn ← reqField j "filename" getStr
    let pu ← reqField j "purpose" getStr
    .ok ⟨fid, by_, ca, fn, pu⟩
  | _ => .error "file: Input should be a valid dictionary"

structure FileUploadResponse where
  file : FileInfo
  base_resp : BaseResponse
deriving Repr, DecidableEq

def FileUploadResponse.fromJson (j : JsonVal) : Except String FileUploadResponse := do
  match j with
  | .obj _ =>
    let f ← reqField j "file" FileInfo.fromJson
    let b ← reqField j "base_resp" BaseResponse.fromJson
    .ok ⟨f, b⟩
  | _ => .error "Input should be a valid dictionary"

-- ===== voice_query_models.py response models =====

structure VoiceSlot where
  voice_id : String
  voice_name : String
  description : List String
deriving Repr, DecidableEq

def VoiceSlot.fromJson (j : JsonVal) : Except String VoiceSlot := do
  match j with
  | .obj _ =>
    let v ← reqField j "voice_id" getStr
    let n ← reqField j "voice_name" getStr
    let d ← reqField j "description" getStrList
    .ok ⟨v, n, d⟩
  | _ => .error "Input should be a valid dictionary"

structure SystemVoice where
  voice_id : String
  voice_name : String
  description : List String
deriving Repr, DecidableEq

def SystemVoice.fromJson (j : JsonVal) : Except String SystemVoice := do
  match j with
  | .obj _ =>
    let v ← reqField j "voice_id" getStr
    let n ← reqField j "voice_name" getStr
    let d ← reqField j "description" getStrList
    .ok ⟨v, n, d⟩
  | _ => .error "Input should be a valid dictionary"

structure VoiceCloning where
  voice_id : String
  description : List String
  created_time : String
deriving Repr, DecidableEq

def VoiceCloning.fromJson (j : JsonVal) : Except String VoiceCloning := do
  match j with
  | .obj _ =>
    let v ← reqField j "voice_id" getStr
    let d ← reqField j "description" getStrList
    let c ← reqField j "created_time" getStr
    .ok ⟨v, d, c⟩
  | _ => .error "Input should be a valid dictionary"

structure VoiceGeneration where
  voice_id : String
  description : List String
  created_time : String
deriving Repr, DecidableEq

def VoiceGeneration.fromJson (j : JsonVal) : Except String VoiceGeneration := do
  match j with
  | .obj _ =>
    let v ← reqField j "voice_id" getStr
    let d ← reqField j "description" getStrList
    let c ← reqField j "created_time" getStr
    .ok ⟨v, d, c⟩
  | _ => .error "Input should be a valid dictionary"

structure MusicGeneration where
  voice_id : String
  instrumental_id : String
  created_time : String
deriving Repr, DecidableEq

def MusicGeneration.fromJson (j : JsonVal) : Except String MusicGeneration := do
  match j with
  | .obj _ =>
    let v ← reqField j "voice_id" getStr
    let i ← reqField j "instrumental_id" getStr
    let c ← reqField j "created_time" getStr
    .ok ⟨v, i, c⟩
  | _ => .error "Input should be a valid dictionary"

-- Optional[list[X]] field declared with Field(description=...): the key is
-- required (Field has no default) but null is accepted.
def getOptListOf (dec : JsonVal → Except String α) : JsonVal → Except String (Option (List α))
  | .null => .ok none
  | .arr xs => (xs.mapM dec).map some
  | _ => .error "Input should be a valid list"

structure VoiceListResponse where
  voice_slots : Option (List VoiceSlot)
  system_voice : Option (List SystemVoice)
  voice_cloning : Option (List VoiceCloning)
  voice_generation : Option (List VoiceGeneration)
  music_generation : Option (List MusicGeneration)
  base_resp : BaseResponse
deriving Repr, DecidableEq

def VoiceListResponse.fromJson (j : JsonVal) : Except String VoiceListResponse := do
  match j with
  | .obj _ =>
    let vs ← reqField j "voice_slots" (getOptListOf VoiceSlot.fromJson)
    let sv ← reqField j "system_voice" (getOptListOf SystemVoice.fromJson)
    let vc ← reqField j "voice_cloning" (getOptListOf VoiceCloning.fromJson)
    let vg ← reqField j "voice_generation" (getOptListOf VoiceGeneration.fromJson)
    let mg ← reqField j "music_generation" (getOptListOf MusicGeneration.fromJson)
    let b ← reqField j "base_resp" BaseResponse.fromJson
    .ok ⟨vs, sv, vc, vg, mg, b⟩
  | _ => .error "Input should be a valid dictionary"

-- ===== tts_models.py request models =====

def validEmotions : List String :=
  ["happy", "sad", "angry", "fearful", "disgusted", "surprised", "neutral"]

structure VoiceSetting where
  speed : Rat
  vol : Rat
  pitch : Int
  voice_id : Option String
  emotion : Option String
  english_normalization : Bool
deriving Repr, DecidableEq

-- Pydantic construction of VoiceSetting: confloat(ge=0.5, le=2),
-- confloat(gt=0, le=10), conint(ge=-12, le=12), optional emotion drawn from
-- a seven-value Literal. A violated constraint raises ValidationError.
def mk_voice_setting (speed vol : Rat) (pitch : Int) (voice_id : Option String)
    (emotion : Option String) (en : Bool) : Except String VoiceSetting :=
  if speed < 0.5 then .error "speed: Input should be greater than or equal to 0.5"
  else if 2 < speed then .error "speed: Input should be less than or equal to 2"
  else if vol ≤ 0 then .error "vol: Input should be greater than 0"
  else if 10 < vol then .error "vol: Input should be less than or equal to 10"
  else if pitch < -12 then .error "pitch: Input should be greater than or equal to -12"
  else if 12 < pitch then .error "pitch: Input should be less than or equal to 12"
  else match emotion with
    | some e =>
      if e ∈ validEmotions then .ok ⟨speed, vol, pitch, voice_id, emotion, en⟩
      else .error "emotion: Input should be a valid emotion"
    | none => .ok ⟨speed, vol, pitch, voice_id, emotion, en⟩

structure AudioSetting where
  sample_rate : Int
  bitrate : Int
  format : String
  channel : Int
deriving Repr, DecidableEq

-- Pydantic construction of AudioSetting: sample_rate, bitrate and format are
-- drawn from the Literal enumerations ValidSr, ValidBitRate, ValidAudioFormat.
def mk_audio_setting (sr br : Int) (fmt : String) (channel : Int) :
    Except String AudioSetting :=
  if sr ∉ validSr then .error "sample_rate: Input should be a valid sample rate"
  else if br ∉ validBitRate then .error "bitrate: Input should be a valid bitrate"
  else if fmt ∉ validAudioFormat then .error "format: Input should be mp3, pcm or flac"
  else if channel ∉ ([1, 2] : List Int) then .error "channel: Input should be 1 or 2"
  else .ok ⟨sr, br, fmt, channel⟩

structure T2ARequest where
  model : String
  text : String
  voice_setting : VoiceSetting
  audio_setting : AudioSetting
  stream : Bool
  subtitle_enable : Bool
  output_format : String
deriving Repr, DecidableEq

-- Pydantic construction of T2ARequest: model is drawn from the ValidModels
-- Literal; text carries max_length=5000. (pronunciation_dict, timber_weights
-- and language_boost default to None and are not touched by any claim.)
def mk_t2a_request (model text : String) (vs : VoiceSetting) (aset : AudioSetting) :
    Except String T2ARequest :=
  if model ∉ validModels then .error "model: Input should be a valid model"
  else if 5000 < text.length then .error "text: String should have at most 5000 characters"
  else .ok ⟨model, text, vs, aset, false, false, "hex"⟩

-- ===== voice_clone_models.py request model =====

structure VoiceCloneRequest where
  file_id : Int
  voice_id : String
  need_noise_reduction : Bool
  text : Option String
  model : Option String
  accuracy : Option Rat
  need_volume_normalization : Bool
deriving Repr, DecidableEq

-- ===== client.py business validation =====

-- The model whitelist inside MiniMaxSpeech._validate_t2a_request.
def t2a_valid_models : List String := ["speech-02-hd", "speech-01-turbo", "speech-01-hd"]

-- The model whitelist inside _validate_voice_clone_request
-- (identical text in client.py and async_client.py).
def clone_valid_models : List String :=
  ["speech-02-hd", "speech-02-turbo", "speech-01-hd", "speech-01-turbo"]

-- Python `not request.text.strip()`: true iff every character is whitespace.
def pyStripEmpty (s : String) : Bool := s.toList.all Char.isWhitespace

-- MiniMaxSpeech._validate_t2a_request (client.py); the async variant has the
-- same text. Raises ValueError (modelled as .error).
def validate_t2a_request (req : T2ARequest) : Except String Unit :=
  if pyStripEmpty req.text then .error "Text cannot be empty"
  else if 5000 < req.text.length then .error "Text too long, maximum 5000 characters allowed"
  else if req.model ∉ t2a_valid_models then .error ("Invalid model: " ++ req.model)
  else .ok ()

-- Python `if request.text and ...`: None and "" are falsy.
def pyTruthyText : Option String → Bool
  | none => false
  | some s => ¬ s.isEmpty

-- Python `if request.model:` followed by the whitelist test, in
-- _validate_voice_clone_request.
def checkCloneModel : Option String → Except String Unit
  | none => .ok ()
  | some m =>
    if m.isEmpty then .ok ()
    else if m ∉ clone_valid_models then .error ("Invalid model: " ++ m)
    else .ok ()

-- First half of _validate_voice_clone_request (client.py lines 252-263): the
-- three sequential voice_id checks. voice_id[0] is only evaluated after the
-- length check, so the empty-list match arm below is unreachable; it reuses
-- the length error message.
def validate_voice_id_rules (voice_id : String) : Except String Unit :=
  if voice_id.length < 8 then .error "voice_id must be at least 8 characters long"
  else match voice_id.toList with
    | [] => .error "voice_id must be at least 8 characters long"
    | c0 :: _ =>
      if ¬ c0.isAlpha then .error "voice_id must start with a letter"
      else if ¬ (voice_id.toList.any Char.isAlpha ∧ voice_id.toList.any Char.isDigit)
      then .error "voice_id must contain both letters and numbers"
      else .ok ()

-- Second half of _validate_voice_clone_request (client.py lines 265-282):
-- the text, accuracy and model checks, in source order.
def validate_clone_rest (req : VoiceCloneRequest) : Except String Unit :=
  if pyTruthyText req.text ∧ 2000 < (req.text.getD "").length
  then .error "text too long, maximum 2000 characters allowed"
  else match req.accuracy with
    | some a =>
      if ¬ (0 ≤ a ∧ a ≤ 1) then .error "accuracy must be between 0 and 1"
      else checkCloneModel req.model
    | none => checkCloneModel req.model

-- MiniMaxSpeech._validate_voice_clone_request (client.py lines 250-282; the
-- async_client.py copy differs only in its model whitelist being written on
-- different lines, with the same four entries): the straight-line sequence of
-- raises, split here into its voice_id stage followed by the rest.
def validate_voice_clone_request (req : VoiceCloneRequest) : Except String Unit := do
  validate_voice_id_rules req.voice_id
  validate_clone_rest req

-- ===== config.py =====

structure APIConfig where
  api_key : String
  group_id : String
  base_url : String
  timeout : Int
  max_retries : Int
deriving Repr, DecidableEq

-- Python `x or default` on an Optional[int]: None and 0 are falsy.
def pyOrInt (x : Option Int) (dflt : Int) : Int :=
  match x with
  | none => dflt
  | some v => if v = 0 then dflt else v

-- Python `x or default` on an Optional[str]: None and "" are falsy.
def pyOrStr (x : Option String) (dflt : String) : String :=
  match x with
  | none => dflt
  | some v => if v.isEmpty then dflt else v

-- APIConfig.__init__: resolve each value from the explicit argument, the
-- environment fallback (for credentials) or the class default; raise
-- ValueError when a credential is still unresolved. DEFAULT_TIMEOUT = 30,
-- MAX_RETRIES = 3. max_retries is resolved and stored like the others.
def resolve_api_config (api_key group_id base_url : Option String)
    (timeout max_retries : Option Int) (env_api_key env_group_id : Option String) :
    Except String APIConfig :=
  if (pyOrStr api_key (pyOrStr env_api_key "")).isEmpty then .error "API key is required."
  else if (pyOrStr group_id (pyOrStr env_group_id "")).isEmpty then
    .error "GroupId is required."
  else .ok ⟨pyOrStr api_key (pyOrStr env_api_key ""),
    pyOrStr group_id (pyOrStr env_group_id ""),
    pyOrStr base_url "https://api.minimax.io/v1", pyOrInt timeout 30, pyOrInt max_retries 3⟩

def t2a_url (cfg : APIConfig) : String :=
  cfg.base_url ++ "/t2a_v2?GroupId=" ++ cfg.group_id

def voice_list_url (cfg : APIConfig) : String :=
  cfg.base_url ++ "/get_voice"

def upload_url (cfg : APIConfig) : String :=
  cfg.base_url ++ "/files/upload?GroupId=" ++ cfg.group_id

def voice_clone_url (cfg : APIConfig) : String :=
  cfg.base_url ++ "/voice_clone?GroupId=" ++ cfg.group_id

def voice_delete_url (cfg : APIConfig) : String :=
  cfg.base_url ++ "/delete_voice?GroupId=" ++ cfg.group_id

-- ===== transport abstraction =====

-- One dispatched HTTP call of the synchronous client: the url it posts to,
-- the payload, and the timeout keyword passed to session.post (none when the
-- source calls session.post without a timeout argument).
structure RequestSpec (π : Type) where
  url : String
  payload : π
  timeout : Option Int
deriving Repr, DecidableEq

-- What the transport layer produced for one dispatched call:
-- requests.exceptions.Timeout, another requests.exceptions.RequestException,
-- or an HTTP response with status code, raw text body, and the result of
-- response.json() (.error = json.JSONDecodeError with its message).
inductive TransportResult where
  | timeout : TransportResult
  | requestFailure (msg : String) : TransportResult
  | response (status : Int) (text : String) (json : Except String JsonVal) : TransportResult

-- The exceptions that can escape a client operation.
inductive PyExn where
  | apiError (message : String) (status_code : Option Int) (response_data : JsonVal)
  | timeoutErr (message : String)
  | pydanticValidationErr (message : String)
  | valueErr (message : String)
  | fileNotFoundErr (message : String)

-- The shared body of _submit_t2a_request, get_voice, file_upload and
-- _submit_voice_clone_request in client.py (their code is copy-pasted per
-- operation in the source; only the response model differs):
--   try:
--     if response.status_code != 200: raise MiniMaxAPIError(...)
--     data = response.json()
--     resp = Model(**data)
--     if not resp.base_resp.is_success: raise MiniMaxAPIError(...)
--     return resp
--   except Timeout: raise MiniMaxTimeoutError("Request timed out")
--   except RequestException as e: raise MiniMaxAPIError(f"Request failed: {e}")
--   except JSONDecodeError as e: raise MiniMaxAPIError(f"Invalid JSON response: {e}")
-- A pydantic ValidationError from Model(**data) matches none of the except
-- clauses and escapes as-is.
def submitStandard (parse : JsonVal → Except String α) (baseOf : α → BaseResponse)
    (t : TransportResult) : Except PyExn α :=
  match t with
  | .timeout => .error (.timeoutErr "Request timed out")
  | .requestFailure m => .error (.apiError ("Request failed: " ++ m) none (.obj []))
  | .response status text json =>
    if status ≠ 200 then
      .error (.apiError ("HTTP " ++ toString status ++ ": " ++ text) (some status)
        (.obj [("text", .str text)]))
    else
      match json with
      | .error e => .error (.apiError ("Invalid JSON response: " ++ e) none (.obj []))
      | .ok data =>
        match parse data with
        | .error e => .error (.pydanticValidationErr e)
        | .ok resp =>
          if (baseOf resp).is_success then .ok resp
          else .error (.apiError ("API Error: " ++ (baseOf resp).error_type)
            (some (baseOf resp).status_code) data)

def submit_t2a : TransportResult → Except PyExn T2AResponse :=
  submitStandard T2AResponse.fromJson T2AResponse.base_resp

def submit_get_voice : TransportResult → Except PyExn VoiceListResponse :=
  submitStandard VoiceListResponse.fromJson VoiceListResponse.base_resp

def submit_file_upload : TransportResult → Except PyExn FileUploadResponse :=
  submitStandard FileUploadResponse.fromJson FileUploadResponse.base_resp

def submit_voice_clone : TransportResult → Except PyExn VoiceCloneResponse :=
  submitStandard VoiceCloneResponse.fromJson VoiceCloneResponse.base_resp

-- MiniMaxSpeech.voice_delete (client.py lines 484-511): unlike the other
-- four operations its try block goes straight from session.post to
-- response.json() with no check of response.status_code.
def submit_voice_delete (t : TransportResult) : Except PyExn VoiceDeleteResponse :=
  match t with
  | .timeout => .error (.timeoutErr "Request timed out")
  | .requestFailure m => .error (.apiError ("Request failed: " ++ m) none (.obj []))
  | .response _status _text json =>
    match json with
    | .error e => .error (.apiError ("Invalid JSON response: " ++ e) none (.obj []))
    | .ok data =>
      match VoiceDeleteResponse.fromJson data with
      | .error e => .error (.pydanticValidationErr e)
      | .ok resp =>
        if resp.base_resp.is_success then .ok resp
        else .error (.apiError ("API Error: " ++ resp.base_resp.error_type)
          (some resp.base_resp.status_code) data)

-- ===== client.py operations: validate, build one request, dispatch =====

-- Each *_run function returns the operation's outcome together with the
-- list of HTTP calls it dispatched (empty when validation failed locally).
-- The transport argument maps the dispatched request to its result.

-- MiniMaxSpeech.text_to_speech: _validate_t2a_request, then one
-- session.post(url, json=payload, timeout=self.config.timeout).
def t2a_run (cfg : APIConfig) (req : T2ARequest)
    (tr : RequestSpec T2ARequest → TransportResult) :
    Except PyExn T2AResponse × List (RequestSpec T2ARequest) :=
  match validate_t2a_request req with
  | .error e => (.error (.valueErr e), [])
  | .ok _ =>
    let spec : RequestSpec T2ARequest := ⟨t2a_url cfg, req, some cfg.timeout⟩
    (submit_t2a (tr spec), [spec])

-- MiniMaxSpeech.get_voice: one session.post(url, data=params) -- no timeout
-- argument is passed.
def get_voice_run (cfg : APIConfig) (voice_type : String)
    (tr : RequestSpec String → TransportResult) :
    Except PyExn VoiceListResponse × List (RequestSpec String) :=
  let spec : RequestSpec String := ⟨voice_list_url cfg, voice_type, none⟩
  (submit_get_voice (tr spec), [spec])

-- MiniMaxSpeech.file_upload: FileNotFoundError before any network call when
-- the path does not exist; otherwise one session.post(url, data=data,
-- files=files) -- no timeout argument. On success the operation returns
-- upload_response.file.file_id.
def file_upload_run (cfg : APIConfig) (path purpose : String) (fileExists : Bool)
    (tr : RequestSpec (String × String) → TransportResult) :
    Except PyExn Int × List (RequestSpec (String × String)) :=
  if ¬ fileExists then (.error (.fileNotFoundErr ("文件不存在: " ++ path)), [])
  else
    let spec : RequestSpec (String × String) := ⟨upload_url cfg, (purpose, path), none⟩
    ((submit_file_upload (tr spec)).map (fun r => r.file.file_id), [spec])

-- MiniMaxSpeech.voice_clone: _validate_voice_clone_request, then one
-- session.post(url, json=payload) -- no timeout argument.
def voice_clone_run (cfg : APIConfig) (req : VoiceCloneRequest)
    (tr : RequestSpec VoiceCloneRequest → TransportResult) :
    Except PyExn VoiceCloneResponse × List (RequestSpec VoiceCloneRequest) :=
  match validate_voice_clone_request req with
  | .error e => (.error (.valueErr e), [])
  | .ok _ =>
    let spec : RequestSpec VoiceCloneRequest := ⟨voice_clone_url cfg, req, none⟩
    (submit_voice_clone (tr spec), [spec])

-- MiniMaxSpeech.voice_delete: one session.post(url, json=payload) -- no
-- timeout argument, and no HTTP status check in submit_voice_delete.
def voice_delete_run (cfg : APIConfig) (voice_id voice_type : String)
    (tr : RequestSpec (String × String) → TransportResult) :
    Except PyExn VoiceDeleteResponse × List (RequestSpec (String × String)) :=
  let spec : RequestSpec (String × String) := ⟨voice_delete_url cfg, (voice_id, voice_type), none⟩
  (submit_voice_delete (tr spec), [spec])

-- MiniMaxSpeech.text_to_speech_simple: construct VoiceSetting, then
-- AudioSetting, then T2ARequest (each raising pydantic ValidationError on a
-- violated field constraint, before any network activity), then delegate to
-- text_to_speech.
def text_to_speech_simple_run (cfg : APIConfig) (text voice_id model : String)
    (speed vol : Rat) (pitch : Int) (fmt : String) (sr br : Int)
    (tr : RequestSpec T2ARequest → TransportResult) :
    Except PyExn T2AResponse × List (RequestSpec T2ARequest) :=
  match mk_voice_setting speed vol pitch (some voice_id) none false with
  | .error e => (.error (.pydanticValidationErr e), [])
  | .ok vs =>
    match mk_audio_setting sr br fmt 1 with
    | .error e => (.error (.pydanticValidationErr e), [])
    | .ok aset =>
      match mk_t2a_request model text vs aset with
      | .error e => (.error (.pydanticValidationErr e), [])
      | .ok req => t2a_run cfg req tr

-- ===== async_client.py batch_text_to_speech =====

-- asyncio.gather(*tasks, return_exceptions=True) resolves slot i of its
-- result to the value or captured exception of task i, in argument order.
def gatherResult (n : Nat) (outcome : Fin n → Except PyExn T2AResponse) :
    List (Except PyExn T2AResponse) :=
  List.ofFn outcome

-- batch_text_to_speech(requests, max_concurrent): the tasks list is built in
-- request order; each task runs text_to_speech(req) inside the semaphore.
def batch_t2a (cfg : APIConfig) (reqs : List T2ARequest)
    (tr : RequestSpec T2ARequest → TransportResult) :
    List (Except PyExn T2AResponse) :=
  gatherResult reqs.length (fun i => (t2a_run cfg (reqs.get i) tr).1)

-- Scheduler model of the semaphore-gated task set: each task is pending
-- until it acquires the semaphore (`async with semaphore`), holds it while
-- running, and releases it when it finishes (successfully or with a captured
-- exception).
structure BatchState (n : Nat) where
  pending : List (Fin n)
  running : List (Fin n)
  done : List (Fin n)

-- One scheduler transition with semaphore capacity cap: a pending task may
-- start only while fewer than cap tasks hold the semaphore; a running task
-- may finish at any time, whatever its outcome.
inductive BatchStep (cap : Nat) {n : Nat} : BatchState n → BatchState n → Prop where
  | acquire (i : Fin n) (s : BatchState n) (hmem : i ∈ s.pending)
      (hcap : s.running.length < cap) :
      BatchStep cap s ⟨s.pending.erase i, i :: s.running, s.done⟩
  | finish (i : Fin n) (s : BatchState n) (hmem : i ∈ s.running) :
      BatchStep cap s ⟨s.pending, s.running.erase i, i :: s.done⟩

def batchInit (n : Nat) : BatchState n := ⟨List.finRange n, [], []⟩

def BatchReach (cap : Nat) {n : Nat} : BatchState n → BatchState n → Prop :=
  Relation.ReflTransGen (BatchStep cap)

-- ===== substring test and concrete JSON fixtures used by witnesses =====

def prefixAt (sub l : List Char) : Bool :=
  sub.isPrefixOf l

def infixAt : List Char → List Char → Bool
  | sub, [] => sub.isEmpty
  | sub, c :: rest => prefixAt sub (c :: rest) || infixAt sub rest

-- strContains s sub: sub occurs as a contiguous substring of s.
def strContains (s sub : String) : Bool :=
  infixAt sub.toList s.toList

def baseRespJson (code : Int) (msg : String) : JsonVal :=
  .obj [("status_code", .num (code : Rat)), ("status_msg", .str msg)]

def extraInfoJson : JsonVal :=
  .obj [("audio_length", .num 1000), ("audio_size", .num 4000),
        ("audio_format", .str "mp3"), ("audio_channel", .num 1),
        ("invisible_character_ratio", .num 0), ("usage_characters", .num 5)]

def t2aBody (code : Int) (msg : String) : JsonVal :=
  .obj [("data", .obj [("audio", .str "48656c6c6f"), ("ced", .null)]),
        ("extra_info", extraInfoJson),
        ("trace_id", .str "trace-1"),
        ("base_resp", baseRespJson code msg)]

def voiceListBody (code : Int) (msg : String) : JsonVal :=
  .obj [("voice_slots", .null), ("system_voice", .null), ("voice_cloning", .null),
        ("voice_generation", .null), ("music_generation", .null),
        ("base_resp", baseRespJson code msg)]

def fileUploadBody (code : Int) (msg : String) : JsonVal :=
  .obj [("file", .obj [("file_id", .num 77), ("bytes", .num 1024),
          ("created_at", .num 1700000000), ("filename", .str "a.mp3"),
          ("purpose", .str "voice_clone")]),
        ("base_resp", baseRespJson code msg)]

def voiceCloneBody (code : Int) (msg : String) : JsonVal :=
  .obj [("input_sensitive", .bool false), ("base_resp", baseRespJson code msg)]

def voiceDeleteBody (code : Int) (msg : String) : JsonVal :=
  .obj [("voice_id", .str "MyVoice01"), ("created_time", .str "2025-01-01"),
        ("base_resp", baseRespJson code msg)]






-- ===== theorems =====

-- Shared lemma: when the HTTP status is 200, the body parses, and the parsed
-- envelope is not successful, the standard submit path raises MiniMaxAPIError
-- built from error_type, carrying the business status code and the decoded
-- payload.
theorem submitStandard_envelope_failure {α : Type} (parse : JsonVal → Except String α)
    (baseOf : α → BaseResponse) (text : String) (data : JsonVal) (resp : α)
    (hparse : parse data = .ok resp) (hmsg : (baseOf resp).status_msg ≠ some "success") :
    submitStandard parse baseOf (.response 200 text (.ok data)) =
      .error (.apiError ("API Error: " ++ (baseOf resp).error_type)
        (some (baseOf resp).status_code) data) := by
  unfold submitStandard
  simp [hparse, BaseResponse.is_success, hmsg]

/-- C1: `BaseResponse.is_success` holds iff `status_msg` is exactly
`"success"`; consequently each of the five operations (text_to_speech,
get_voice, file_upload, voice_clone, voice_delete), given an HTTP-200
response whose parsed envelope has `status_code = 0` but a `status_msg`
different from `"success"`, raises MiniMaxAPIError instead of returning. -/
theorem c1_success_defined_by_status_msg :
    (∀ b : BaseResponse, b.is_success = true ↔ b.status_msg = some "success") ∧
    (∀ text data resp, T2AResponse.fromJson data = .ok resp →
      resp.base_resp.status_code = 0 → resp.base_resp.status_msg ≠ some "success" →
      submit_t2a (.response 200 text (.ok data)) =
        .error (.apiError ("API Error: " ++ resp.base_resp.error_type) (some 0) data)) ∧
    (∀ text data resp, VoiceListResponse.fromJson data = .ok resp →
      resp.base_resp.status_code = 0 → resp.base_resp.status_msg ≠ some "success" →
      submit_get_voice (.response 200 text (.ok data)) =
        .error (.apiError ("API Error: " ++ resp.base_resp.error_type) (some 0) data)) ∧
    (∀ text data resp, FileUploadResponse.fromJson data = .ok resp →
      resp.base_resp.status_code = 0 → resp.base_resp.status_msg ≠ some "success" →
      submit_file_upload (.response 200 text (.ok data)) =
        .error (.apiError ("API Error: " ++ resp.base_resp.error_type) (some 0) data)) ∧
    (∀ text data resp, VoiceCloneResponse.fromJson data = .ok resp →
      resp.base_resp.status_code = 0 → resp.base_resp.status_msg ≠ some "success" →
      submit_voice_clone (.response 200 text (.ok data)) =
        .error (.apiError ("API Error: " ++ resp.base_resp.error_type) (some 0) data)) ∧
    (∀ text data resp, VoiceDeleteResponse.fromJson data = .ok resp →
      resp.base_resp.status_code = 0 → resp.base_resp.status_msg ≠ some "success" →
      submit_voice_delete (.response 200 text (.ok data)) =
        .error (.apiError ("API Error: " ++ resp.base_resp.error_type) (some 0) data)) := by
  refine ⟨?_, ?_, ?_, ?_, ?_, ?_⟩
  · intro b
    simp [BaseResponse.is_success]
  · intro text data resp hp h0 hm
    have h := submitStandard_envelope_failure T2AResponse.fromJson T2AResponse.base_resp
      text data resp hp hm
    rw [h0] at h
    exact h
  · intro text data resp hp h0 hm
    have h := submitStandard_envelope_failure VoiceListResponse.fromJson
      VoiceListResponse.base_resp text data resp hp hm
    rw [h0] at h
    exact h
  · intro text data resp hp h0 hm
    have h := submitStandard_envelope_failure FileUploadResponse.fromJson
      FileUploadResponse.base_resp text data resp hp hm
    rw [h0] at h
    exact h
  · intro text data resp hp h0 hm
    have h := submitStandard_envelope_failure VoiceCloneResponse.fromJson
      VoiceCloneResponse.base_resp text data resp hp hm
    rw [h0] at h
    exact h
  · intro text data resp hp h0 hm
    unfold submit_voice_delete
    simp [hp, BaseResponse.is_success, hm, h0]

/-- C1 witness: concrete HTTP-200 bodies whose envelope is
`{status_code: 0, status_msg: "ok"}` make every operation raise. -/
theorem c1_success_defined_by_status_msg_witness :
    (BaseResponse.is_success ⟨0, some "ok"⟩ = true ↔
      (⟨0, some "ok"⟩ : BaseResponse).status_msg = some "success") ∧
    submit_t2a (.response 200 "raw" (.ok (t2aBody 0 "ok"))) =
      .error (.apiError ("API Error: " ++
        BaseResponse.error_type ⟨0, some "ok"⟩) (some 0) (t2aBody 0 "ok")) ∧
    submit_get_voice (.response 200 "raw" (.ok (voiceListBody 0 "ok"))) =
      .error (.apiError ("API Error: " ++
        BaseResponse.error_type ⟨0, some "ok"⟩) (some 0) (voiceListBody 0 "ok")) ∧
    submit_file_upload (.response 200 "raw" (.ok (fileUploadBody 0 "ok"))) =
      .error (.apiError ("API Error: " ++
        BaseResponse.error_type ⟨0, some "ok"⟩) (some 0) (fileUploadBody 0 "ok")) ∧
    submit_voice_clone (.response 200 "raw" (.ok (voiceCloneBody 0 "ok"))) =
      .error (.apiError ("API Error: " ++
        BaseResponse.error_type ⟨0, some "ok"⟩) (some 0) (voiceCloneBody 0 "ok")) ∧
    submit_voice_delete (.response 200 "raw" (.ok (voiceDeleteBody 0 "ok"))) =
      .error (.apiError ("API Error: " ++
        BaseResponse.error_type ⟨0, some "ok"⟩) (some 0) (voiceDeleteBody 0 "ok")) :=
  ⟨c1_success_defined_by_status_msg.1 ⟨0, some "ok"⟩,
   c1_success_defined_by_status_msg.2.1 "raw" (t2aBody 0 "ok") _ (by rfl) (by rfl)
     (by simp),
   c1_success_defined_by_status_msg.2.2.1 "raw" (voiceListBody 0 "ok") _ (by rfl) (by rfl)
     (by simp),
   c1_success_defined_by_status_msg.2.2.2.1 "raw" (fileUploadBody 0 "ok") _ (by rfl) (by rfl)
     (by simp),
   c1_success_defined_by_status_msg.2.2.2.2.1 "raw" (voiceCloneBody 0 "ok") _ (by rfl) (by rfl)
     (by simp),
   c1_success_defined_by_status_msg.2.2.2.2.2 "raw" (voiceDeleteBody 0 "ok") _ (by rfl) (by rfl)
     (by simp)⟩

-- Shared lemma: the standard submit path turns a non-200 HTTP status into
-- MiniMaxAPIError carrying that status and the raw body text.
theorem submitStandard_http_failure {α : Type} (parse : JsonVal → Except String α)
    (baseOf : α → BaseResponse) (status : Int) (text : String)
    (json : Except String JsonVal) (hne : status ≠ 200) :
    submitStandard parse baseOf (.response status text json) =
      .error (.apiError ("HTTP " ++ toString status ++ ": " ++ text) (some status)
        (.obj [("text", .str text)])) := by
  unfold submitStandard
  simp [hne]

/-- C2 counterexample: voice_delete does not check the HTTP status. Given an
HTTP 500 response whose body still decodes to a successful delete envelope,
`voice_delete` returns the parsed response instead of raising an APIError
carrying status 500, refuting the claim for voice_delete. -/
theorem c2_counterexample_voice_delete_on_http_500 :
    submit_voice_delete
        (.response 500 "Internal Server Error" (.ok (voiceDeleteBody 0 "success"))) =
      .ok ⟨"MyVoice01", "2025-01-01", ⟨0, some "success"⟩⟩ := by
  rfl

/-- C2 (amended): for text_to_speech, get_voice, file_upload and voice_clone a
non-200 HTTP status raises an APIError carrying that HTTP status code and the
raw response body, but voice_delete performs no HTTP-status check at all: its
outcome is the same whatever the HTTP status, depending only on the body. -/
theorem c2_http_status_check_all_but_voice_delete :
    (∀ status text json, status ≠ 200 →
      submit_t2a (.response status text json) =
        .error (.apiError ("HTTP " ++ toString status ++ ": " ++ text) (some status)
          (.obj [("text", .str text)]))) ∧
    (∀ status text json, status ≠ 200 →
      submit_get_voice (.response status text json) =
        .error (.apiError ("HTTP " ++ toString status ++ ": " ++ text) (some status)
          (.obj [("text", .str text)]))) ∧
    (∀ status text json, status ≠ 200 →
      submit_file_upload (.response status text json) =
        .error (.apiError ("HTTP " ++ toString status ++ ": " ++ text) (some status)
          (.obj [("text", .str text)]))) ∧
    (∀ status text json, status ≠ 200 →
      submit_voice_clone (.response status text json) =
        .error (.apiError ("HTTP " ++ toString status ++ ": " ++ text) (some status)
          (.obj [("text", .str text)]))) ∧
    (∀ s₁ s₂ text json,
      submit_voice_delete (.response s₁ text json) =
        submit_voice_delete (.response s₂ text json)) := by
  refine ⟨?_, ?_, ?_, ?_, ?_⟩
  · intro status text json hne
    exact submitStandard_http_failure _ _ status text json hne
  · intro status text json hne
    exact submitStandard_http_failure _ _ status text json hne
  · intro status text json hne
    exact submitStandard_http_failure _ _ status text json hne
  · intro status text json hne
    exact submitStandard_http_failure _ _ status text json hne
  · intro s₁ s₂ text json
    rfl

/-- C2 witness: the amended statement applied at HTTP status 500. -/
theorem c2_http_status_check_all_but_voice_delete_witness :
    submit_t2a (.response 500 "boom" (.error "not json")) =
      .error (.apiError ("HTTP " ++ toString (500 : Int) ++ ": " ++ "boom") (some 500)
        (.obj [("text", .str "boom")])) ∧
    submit_get_voice (.response 500 "boom" (.error "not json")) =
      .error (.apiError ("HTTP " ++ toString (500 : Int) ++ ": " ++ "boom") (some 500)
        (.obj [("text", .str "boom")])) ∧
    submit_file_upload (.response 500 "boom" (.error "not json")) =
      .error (.apiError ("HTTP " ++ toString (500 : Int) ++ ": " ++ "boom") (some 500)
        (.obj [("text", .str "boom")])) ∧
    submit_voice_clone (.response 500 "boom" (.error "not json")) =
      .error (.apiError ("HTTP " ++ toString (500 : Int) ++ ": " ++ "boom") (some 500)
        (.obj [("text", .str "boom")])) ∧
    submit_voice_delete (.response 500 "x" (.error "not json")) =
      submit_voice_delete (.response 200 "x" (.error "not json")) :=
  ⟨c2_http_status_check_all_but_voice_delete.1 500 "boom" (.error "not json") (by decide),
   c2_http_status_check_all_but_voice_delete.2.1 500 "boom" (.error "not json") (by decide),
   c2_http_status_check_all_but_voice_delete.2.2.1 500 "boom" (.error "not json") (by decide),
   c2_http_status_check_all_but_voice_delete.2.2.2.1 500 "boom" (.error "not json") (by decide),
   c2_http_status_check_all_but_voice_delete.2.2.2.2 500 200 "x" (.error "not json")⟩

-- Sequencing facts for the two halves of _validate_voice_clone_request.
theorem validate_clone_split_ok (req : VoiceCloneRequest)
    (h : validate_voice_id_rules req.voice_id = .ok ()) :
    validate_voice_clone_request req = validate_clone_rest req := by
  unfold validate_voice_clone_request
  rw [h]
  rfl

theorem validate_clone_split_err (req : VoiceCloneRequest) (e : String)
    (h : validate_voice_id_rules req.voice_id = .error e) :
    validate_voice_clone_request req = .error e := by
  unfold validate_voice_clone_request
  rw [h]
  rfl

/-- C3: the voice-clone business validation accepts a voice_id iff it is at
least 8 characters long, starts with an alphabetic character, and contains at
least one letter and one digit; each violated rule, and the text/accuracy/
model rules, raise ValueError with the stated message. -/
theorem c3_clone_validation_rules :
    (∀ s : String, validate_voice_id_rules s = .ok () ↔
      (8 ≤ s.length ∧ (s.toList.take 1).all Char.isAlpha = true ∧
       s.toList.any Char.isAlpha = true ∧ s.toList.any Char.isDigit = true)) ∧
    (∀ req : VoiceCloneRequest, req.voice_id.length < 8 →
      validate_voice_clone_request req =
        .error "voice_id must be at least 8 characters long") ∧
    (∀ (req : VoiceCloneRequest) (c : Char) (rest : List Char),
      req.voice_id.toList = c :: rest → 8 ≤ req.voice_id.length → c.isAlpha = false →
      validate_voice_clone_request req = .error "voice_id must start with a letter") ∧
    (∀ (req : VoiceCloneRequest) (c : Char) (rest : List Char),
      req.voice_id.toList = c :: rest → 8 ≤ req.voice_id.length → c.isAlpha = true →
      req.voice_id.toList.any Char.isDigit = false →
      validate_voice_clone_request req =
        .error "voice_id must contain both letters and numbers") ∧
    (∀ (req : VoiceCloneRequest) (s : String),
      validate_voice_id_rules req.voice_id = .ok () → req.text = some s →
      2000 < s.length →
      validate_voice_clone_request req =
        .error "text too long, maximum 2000 characters allowed") ∧
    (∀ (req : VoiceCloneRequest) (a : Rat),
      validate_voice_id_rules req.voice_id = .ok () →
      ¬ (pyTruthyText req.text = true ∧ 2000 < (req.text.getD "").length) →
      req.accuracy = some a → ¬ (0 ≤ a ∧ a ≤ 1) →
      validate_voice_clone_request req = .error "accuracy must be between 0 and 1") ∧
    (∀ (req : VoiceCloneRequest) (m : String),
      validate_voice_id_rules req.voice_id = .ok () →
      ¬ (pyTruthyText req.text = true ∧ 2000 < (req.text.getD "").length) →
      (req.accuracy = none ∨ ∃ a, req.accuracy = some a ∧ 0 ≤ a ∧ a ≤ 1) →
      req.model = some m → m.isEmpty = false → m ∉ clone_valid_models →
      validate_voice_clone_request req = .error ("Invalid model: " ++ m)) ∧
    (strContains "voice_id must be at least 8 characters long"
        "at least 8 characters long" = true ∧
     strContains "voice_id must start with a letter" "must start with a letter" = true ∧
     strContains "voice_id must contain both letters and numbers"
        "must contain both letters and numbers" = true ∧
     strContains "text too long, maximum 2000 characters allowed"
        "maximum 2000 characters" = true ∧
     strContains "accuracy must be between 0 and 1" "between 0 and 1" = true) := by
  refine ⟨?_, ?_, ?_, ?_, ?_, ?_, ?_, ?_⟩
  · intro s
    have hlen : s.length = s.toList.length := rfl
    unfold validate_voice_id_rules
    cases hl : s.toList with
    | nil =>
      have h0 : s.length = 0 := by rw [hlen, hl]; rfl
      simp [hl, h0]
    | cons c rest =>
      by_cases h8 : s.length < 8
      · simp [h8, show ¬ 8 ≤ s.length by omega]
      · have h8' : 8 ≤ s.length := by omega
        by_cases hca : c.isAlpha
        · by_cases hd : (c :: rest).any Char.isDigit
          · simp [h8, h8', hca, hd]
          · simp [h8, h8', hca, hd]
        · simp [h8, h8', hca]
  · intro req h8
    apply validate_clone_split_err
    unfold validate_voice_id_rules
    simp [h8]
  · intro req c rest hl h8 hca
    apply validate_clone_split_err
    unfold validate_voice_id_rules
    rw [hl]
    simp [show ¬ req.voice_id.length < 8 by omega, hca]
  · intro req c rest hl h8 hca hd
    apply validate_clone_split_err
    unfold validate_voice_id_rules
    rw [hl]
    rw [hl] at hd
    simp [show ¬ req.voice_id.length < 8 by omega, hca, hd]
  · intro req s hok htext hlong
    rw [validate_clone_split_ok req hok]
    unfold validate_clone_rest
    have hne : s.isEmpty = false := by
      rw [Bool.eq_false_iff]
      intro hemp
      rw [show s = "" from (String.isEmpty_iff s).mp hemp] at hlong
      simp at hlong
    simp [htext, pyTruthyText, hne, hlong]
  · intro req a hok htext hacc hrange
    rw [validate_clone_split_ok req hok]
    unfold validate_clone_rest
    simp only [if_neg htext]
    rw [hacc]
    simp [hrange]
  · intro req m hok htext hacc hm hne hwl
    rw [validate_clone_split_ok req hok]
    unfold validate_clone_rest
    simp only [if_neg htext]
    rcases hacc with h | ⟨a, ha, h0, h1⟩
    · rw [h]
      simp [checkCloneModel, hm, hne, hwl]
    · rw [ha]
      simp [show (0 ≤ a ∧ a ≤ 1) by exact ⟨h0, h1⟩, checkCloneModel, hm, hne, hwl]
  · refine ⟨?_, ?_, ?_, ?_, ?_⟩ <;> decide

/-- C3 witness: each validation rule exercised at a concrete request. -/
theorem c3_clone_validation_rules_witness :
    validate_voice_id_rules "abcdefg1" = .ok () ∧
    validate_voice_clone_request ⟨1, "ab1", false, none, none, none, false⟩ =
      .error "voice_id must be at least 8 characters long" ∧
    validate_voice_clone_request ⟨1, "1abcdefg", false, none, none, none, false⟩ =
      .error "voice_id must start with a letter" ∧
    validate_voice_clone_request ⟨1, "abcdefgh", false, none, none, none, false⟩ =
      .error "voice_id must contain both letters and numbers" ∧
    validate_voice_clone_request
        ⟨1, "voice123", false, some (String.mk (List.replicate 2001 'a')), none, none, false⟩ =
      .error "text too long, maximum 2000 characters allowed" ∧
    validate_voice_clone_request ⟨1, "voice123", false, none, none, some 2, false⟩ =
      .error "accuracy must be between 0 and 1" ∧
    validate_voice_clone_request
        ⟨1, "voice123", false, none, some "speech-03", some 1, false⟩ =
      .error ("Invalid model: " ++ "speech-03") ∧
    strContains "text too long, maximum 2000 characters allowed"
      "maximum 2000 characters" = true :=
  ⟨(c3_clone_validation_rules.1 "abcdefg1").mpr (by decide),
   c3_clone_validation_rules.2.1 ⟨1, "ab1", false, none, none, none, false⟩ (by decide),
   c3_clone_validation_rules.2.2.1 ⟨1, "1abcdefg", false, none, none, none, false⟩
     '1' "abcdefg".toList (by rfl) (by decide) (by decide),
   c3_clone_validation_rules.2.2.2.1 ⟨1, "abcdefgh", false, none, none, none, false⟩
     'a' "bcdefgh".toList (by rfl) (by decide) (by decide) (by decide),
   c3_clone_validation_rules.2.2.2.2.1
     ⟨1, "voice123", false, some (String.mk (List.replicate 2001 'a')), none, none, false⟩
     (String.mk (List.replicate 2001 'a')) (by rfl) (by rfl)
     (by rw [String.length_mk, List.length_replicate]; omega),
   c3_clone_validation_rules.2.2.2.2.2.1 ⟨1, "voice123", false, none, none, some 2, false⟩
     2 (by rfl) (by decide) (by rfl) (by decide),
   c3_clone_validation_rules.2.2.2.2.2.2.1
     ⟨1, "voice123", false, none, some "speech-03", some 1, false⟩
     "speech-03" (by rfl) (by decide) (.inr ⟨1, rfl, by decide, by decide⟩)
     (by rfl) (by rfl) (by decide),
   c3_clone_validation_rules.2.2.2.2.2.2.2.2.2.2.1⟩

/-- C4 counterexample: there is no model value accepted by the T2ARequest
field type (the ValidModels Literal) that the pre-flight whitelist rejects --
the ValidModels Literal repeats "speech-01-turbo" and does not include
"speech-02-turbo", so the two collections denote the same three-element set,
refuting the claimed strict inclusion. -/
theorem c4_counterexample_no_model_separates :
    ¬ ∃ m, m ∈ validModels ∧ m ∉ t2a_valid_models := by
  decide

/-- C4 (amended): the synthesis pre-flight whitelist and the T2ARequest
field's type-level enumeration accept exactly the same set of identifiers,
namely {speech-02-hd, speech-01-turbo, speech-01-hd}: the four-entry
ValidModels Literal contains "speech-01-turbo" twice (and lacks
"speech-02-turbo"), so the pre-flight whitelist is an equal set, not a strict
subset, and no model constructs a valid T2ARequest while being rejected by
pre-flight validation. -/
theorem c4_model_whitelists_coincide :
    (∀ m ∈ validModels, m ∈ t2a_valid_models) ∧
    (∀ m ∈ t2a_valid_models, m ∈ validModels) ∧
    (∀ m text vs aset, (∃ req, mk_t2a_request m text vs aset = .ok req) →
      m ∈ validModels) := by
  refine ⟨by decide, by decide, ?_⟩
  intro m text vs aset ⟨req, hreq⟩
  unfold mk_t2a_request at hreq
  by_cases hm : m ∈ validModels
  · exact hm
  · simp [hm] at hreq

/-- C4 witness: the amended statement applied at "speech-01-turbo", the
duplicated entry. -/
theorem c4_model_whitelists_coincide_witness :
    "speech-01-turbo" ∈ t2a_valid_models ∧ "speech-01-turbo" ∈ validModels :=
  ⟨c4_model_whitelists_coincide.1 "speech-01-turbo" (by decide),
   c4_model_whitelists_coincide.2.1 "speech-01-turbo" (by decide)⟩

/-- C5: constructing a VoiceSetting succeeds iff speed ∈ [0.5, 2],
vol ∈ (0, 10] and pitch ∈ [-12, 12]; an out-of-range value makes the
simplified synthesis entry point raise the construction's ValidationError
with no request dispatched. -/
theorem c5_voice_setting_construction_ranges :
    (∀ (speed vol : Rat) (pitch : Int) (vid : Option String),
      (∃ vs, mk_voice_setting speed vol pitch vid none false = .ok vs) ↔
      (0.5 ≤ speed ∧ speed ≤ 2 ∧ 0 < vol ∧ vol ≤ 10 ∧ -12 ≤ pitch ∧ pitch ≤ 12)) ∧
    (∀ cfg text vid model (speed vol : Rat) (pitch : Int) fmt sr br tr,
      ¬ (0.5 ≤ speed ∧ speed ≤ 2 ∧ 0 < vol ∧ vol ≤ 10 ∧ -12 ≤ pitch ∧ pitch ≤ 12) →
      (text_to_speech_simple_run cfg text vid model speed vol pitch fmt sr br tr).2 = [] ∧
      ∃ e, (text_to_speech_simple_run cfg text vid model speed vol pitch fmt sr br tr).1 =
        .error (.pydanticValidationErr e)) := by
  have main : ∀ (speed vol : Rat) (pitch : Int) (vid : Option String),
      (∃ vs, mk_voice_setting speed vol pitch vid none false = .ok vs) ↔
      (0.5 ≤ speed ∧ speed ≤ 2 ∧ 0 < vol ∧ vol ≤ 10 ∧ -12 ≤ pitch ∧ pitch ≤ 12) := by
    intro speed vol pitch vid
    unfold mk_voice_setting
    split_ifs with h1 h2 h3 h4 h5 h6
    · constructor
      · rintro ⟨vs, hvs⟩
        simp at hvs
      · rintro ⟨a1, a2, a3, a4, a5, a6⟩
        exfalso
        linarith
    · constructor
      · rintro ⟨vs, hvs⟩
        simp at hvs
      · rintro ⟨a1, a2, a3, a4, a5, a6⟩
        exfalso
        linarith
    · constructor
      · rintro ⟨vs, hvs⟩
        simp at hvs
      · rintro ⟨a1, a2, a3, a4, a5, a6⟩
        exfalso
        linarith
    · constructor
      · rintro ⟨vs, hvs⟩
        simp at hvs
      · rintro ⟨a1, a2, a3, a4, a5, a6⟩
        exfalso
        linarith
    · constructor
      · rintro ⟨vs, hvs⟩
        simp at hvs
      · rintro ⟨a1, a2, a3, a4, a5, a6⟩
        exfalso
        omega
    · constructor
      · rintro ⟨vs, hvs⟩
        simp at hvs
      · rintro ⟨a1, a2, a3, a4, a5, a6⟩
        exfalso
        omega
    · constructor
      · intro _
        exact ⟨not_lt.mp h1, not_lt.mp h2, not_le.mp h3, not_lt.mp h4,
          not_lt.mp h5, not_lt.mp h6⟩
      · intro _
        exact ⟨⟨speed, vol, pitch, vid, none, false⟩, rfl⟩
  refine ⟨main, ?_⟩
  intro cfg text vid model speed vol pitch fmt sr br tr hbad
  cases h : mk_voice_setting speed vol pitch (some vid) none false with
  | ok vs =>
    exact absurd ((main speed vol pitch (some vid)).mp ⟨vs, h⟩) hbad
  | error e =>
    unfold text_to_speech_simple_run
    rw [h]
    exact ⟨rfl, e, rfl⟩

/-- C5 witness: pitch 13 is rejected before any dispatch; pitch 0 with
speed 1 and vol 1 constructs successfully. -/
theorem c5_voice_setting_construction_ranges_witness :
    ((text_to_speech_simple_run ⟨"k", "g", "u", 30, 3⟩ "hello" "Wise_Woman" "speech-02-hd"
        1 1 13 "mp3" 32000 128000 (fun _ => TransportResult.timeout)).2 = [] ∧
      ∃ e, (text_to_speech_simple_run ⟨"k", "g", "u", 30, 3⟩ "hello" "Wise_Woman"
        "speech-02-hd" 1 1 13 "mp3" 32000 128000
        (fun _ => TransportResult.timeout)).1 = .error (.pydanticValidationErr e)) ∧
    (∃ vs, mk_voice_setting 1 1 0 none none false = .ok vs) :=
  ⟨c5_voice_setting_construction_ranges.2 ⟨"k", "g", "u", 30, 3⟩ "hello" "Wise_Woman"
      "speech-02-hd" 1 1 13 "mp3" 32000 128000 (fun _ => TransportResult.timeout)
      (fun h => absurd h.2.2.2.2.2 (by decide)),
   (c5_voice_setting_construction_ranges.1 1 1 0 none).mpr (by norm_num)⟩

-- An association-list lookup succeeds exactly on the listed keys.
theorem lookup_isSome_iff_mem_keys {α β : Type} [BEq α] [LawfulBEq α]
    (l : List (α × β)) (c : α) :
    (l.lookup c).isSome = true ↔ c ∈ l.map Prod.fst := by
  induction l with
  | nil => simp [List.lookup]
  | cons hd tl ih =>
    obtain ⟨k, v⟩ := hd
    by_cases h : c = k
    · simp [List.lookup, h]
    · have hbeq : (c == k) = false := by simp [h]
      simp [List.lookup, hbeq, ih, h]

/-- C6: the status-code table is defined exactly on
{1000, 1001, 1002, 1004, 1039, 1042, 2013, 2039}; any other code maps to the
unknown-error description; and an HTTP-200 response whose parsed envelope is
{status_code: 1004, status_msg ≠ "success"} raises an APIError carrying
status code 1004, the decoded payload, and a message containing the mapped
description for 1004 ("认证失败"). -/
theorem c6_error_code_mapping :
    (∀ c : Int, (error_mapping.lookup c).isSome = true ↔
      c ∈ ([1000, 1001, 1002, 1004, 1039, 1042, 2013, 2039] : List Int)) ∧
    (∀ b : BaseResponse,
      b.status_code ∉ ([1000, 1001, 1002, 1004, 1039, 1042, 2013, 2039] : List Int) →
      b.error_type = "未知错误" ++ ": " ++ pyShowOptStr b.status_msg) ∧
    (∀ text data resp, T2AResponse.fromJson data = .ok resp →
      resp.base_resp.status_code = 1004 → resp.base_resp.status_msg ≠ some "success" →
      submit_t2a (.response 200 text (.ok data)) =
        .error (.apiError ("API Error: " ++ resp.base_resp.error_type) (some 1004) data) ∧
      ∃ pre post, "API Error: " ++ resp.base_resp.error_type =
        pre ++ ("认证失败" ++ post)) := by
  refine ⟨?_, ?_, ?_⟩
  · intro c
    have h := lookup_isSome_iff_mem_keys error_mapping c
    rw [h]
    rfl
  · intro b hb
    have hnone : error_mapping.lookup b.status_code = none := by
      cases hl : error_mapping.lookup b.status_code with
      | none => rfl
      | some v =>
        exfalso
        apply hb
        have : (error_mapping.lookup b.status_code).isSome = true := by rw [hl]; rfl
        have hmem := (lookup_isSome_iff_mem_keys error_mapping b.status_code).mp this
        simpa [error_mapping] using hmem
    unfold BaseResponse.error_type
    rw [hnone]
    rfl
  · intro text data resp hp h1004 hm
    constructor
    · have h := submitStandard_envelope_failure T2AResponse.fromJson T2AResponse.base_resp
        text data resp hp hm
      rw [h1004] at h
      exact h
    · refine ⟨"API Error: ", ": " ++ pyShowOptStr resp.base_resp.status_msg, ?_⟩
      unfold BaseResponse.error_type
      rw [h1004]
      rw [show error_mapping.lookup (1004 : Int) = some "认证失败" from rfl]
      simp [String.append_assoc]
      rw [show ("认证失败: " : String) = "认证失败" ++ ": " from rfl, String.append_assoc]

/-- C6 witness: a full HTTP-200 body with envelope
{status_code: 1004, status_msg: "认证失败"}, and the unknown-code fallback at
status code 1234. -/
theorem c6_error_code_mapping_witness :
    ((error_mapping.lookup (1004 : Int)).isSome = true ↔
      (1004 : Int) ∈ ([1000, 1001, 1002, 1004, 1039, 1042, 2013, 2039] : List Int)) ∧
    BaseResponse.error_type ⟨1234, some "?"⟩ =
      "未知错误" ++ ": " ++ pyShowOptStr (some "?") ∧
    submit_t2a (.response 200 "raw" (.ok (t2aBody 1004 "认证失败"))) =
      .error (.apiError ("API Error: " ++
        BaseResponse.error_type ⟨1004, some "认证失败"⟩) (some 1004)
        (t2aBody 1004 "认证失败")) ∧
    ∃ pre post, "API Error: " ++ BaseResponse.error_type ⟨1004, some "认证失败"⟩ =
      pre ++ ("认证失败" ++ post) :=
  ⟨c6_error_code_mapping.1 1004,
   c6_error_code_mapping.2.1 ⟨1234, some "?"⟩ (by decide),
   (c6_error_code_mapping.2.2 "raw" (t2aBody 1004 "认证失败") _ (by rfl) (by rfl)
     (by simp)).1,
   (c6_error_code_mapping.2.2 "raw" (t2aBody 1004 "认证失败") _ (by rfl) (by rfl)
     (by simp)).2⟩

/-- C7 counterexample: with the timeout configured as 30 at construction, the
get_voice and voice_delete operations of the synchronous client dispatch
their HTTP call with no timeout at all (session.post is called without a
timeout argument), refuting the claim that the configured timeout applies
per-request to every operation. -/
theorem c7_counterexample_timeout_not_applied :
    (get_voice_run ⟨"k", "g", "u", 30, 3⟩ "all" (fun _ => .timeout)).2.map
        (fun s => s.timeout) = [none] ∧
    (voice_delete_run ⟨"k", "g", "u", 30, 3⟩ "MyVoice01" "voice_cloning"
        (fun _ => .timeout)).2.map (fun s => s.timeout) = [none] ∧
    (⟨"k", "g", "u", 30, 3⟩ : APIConfig).timeout = 30 :=
  ⟨rfl, rfl, rfl⟩

/-- C7 (amended): in the synchronous client only the synthesis operation
passes the configured timeout to its dispatch (and a transport timeout there
raises the distinct MiniMaxTimeoutError); get_voice, file_upload, voice_clone
and voice_delete dispatch without any timeout. -/
theorem c7_timeout_applied_only_to_synthesis :
    (∀ cfg req tr, ∀ spec ∈ (t2a_run cfg req tr).2,
      RequestSpec.timeout spec = some cfg.timeout) ∧
    (∀ cfg vt tr, ∀ spec ∈ (get_voice_run cfg vt tr).2,
      RequestSpec.timeout spec = none) ∧
    (∀ cfg path purpose fe tr, ∀ spec ∈ (file_upload_run cfg path purpose fe tr).2,
      RequestSpec.timeout spec = none) ∧
    (∀ cfg req tr, ∀ spec ∈ (voice_clone_run cfg req tr).2,
      RequestSpec.timeout spec = none) ∧
    (∀ cfg vid vt tr, ∀ spec ∈ (voice_delete_run cfg vid vt tr).2,
      RequestSpec.timeout spec = none) ∧
    submit_t2a .timeout = .error (.timeoutErr "Request timed out") := by
  refine ⟨?_, ?_, ?_, ?_, ?_, rfl⟩
  · intro cfg req tr spec hspec
    unfold t2a_run at hspec
    cases hv : validate_t2a_request req with
    | error e =>
      rw [hv] at hspec
      simp at hspec
    | ok u =>
      rw [hv] at hspec
      simp at hspec
      subst hspec
      rfl
  · intro cfg vt tr spec hspec
    unfold get_voice_run at hspec
    simp at hspec
    subst hspec
    rfl
  · intro cfg path purpose fe tr spec hspec
    unfold file_upload_run at hspec
    by_cases hfe : fe
    · simp [hfe] at hspec
      subst hspec
      rfl
    · simp [hfe] at hspec
  · intro cfg req tr spec hspec
    unfold voice_clone_run at hspec
    cases hv : validate_voice_clone_request req with
    | error e =>
      rw [hv] at hspec
      simp at hspec
    | ok u =>
      rw [hv] at hspec
      simp at hspec
      subst hspec
      rfl
  · intro cfg vid vt tr spec hspec
    unfold voice_delete_run at hspec
    simp at hspec
    subst hspec
    rfl

/-- C7 witness: the amended statement applied at a concrete configuration,
request and transport. -/
theorem c7_timeout_applied_only_to_synthesis_witness :
    RequestSpec.timeout (⟨t2a_url ⟨"k", "g", "u", 30, 3⟩,
      ⟨"speech-02-hd", "hello", ⟨1, 1, 0, some "Wise_Woman", none, false⟩,
        ⟨32000, 128000, "mp3", 1⟩, false, false, "hex"⟩, some 30⟩ :
      RequestSpec T2ARequest) = some ((⟨"k", "g", "u", 30, 3⟩ : APIConfig).timeout) ∧
    RequestSpec.timeout (⟨voice_delete_url ⟨"k", "g", "u", 30, 3⟩,
      ("MyVoice01", "voice_cloning"), none⟩ : RequestSpec (String × String)) = none ∧
    submit_t2a .timeout = .error (.timeoutErr "Request timed out") :=
  ⟨c7_timeout_applied_only_to_synthesis.1 ⟨"k", "g", "u", 30, 3⟩
      ⟨"speech-02-hd", "hello", ⟨1, 1, 0, some "Wise_Woman", none, false⟩,
        ⟨32000, 128000, "mp3", 1⟩, false, false, "hex"⟩ (fun _ => .timeout) _
      (by
        have h : (t2a_run ⟨"k", "g", "u", 30, 3⟩
            ⟨"speech-02-hd", "hello", ⟨1, 1, 0, some "Wise_Woman", none, false⟩,
              ⟨32000, 128000, "mp3", 1⟩, false, false, "hex"⟩ (fun _ => .timeout)).2 =
            [⟨t2a_url ⟨"k", "g", "u", 30, 3⟩,
              ⟨"speech-02-hd", "hello", ⟨1, 1, 0, some "Wise_Woman", none, false⟩,
                ⟨32000, 128000, "mp3", 1⟩, false, false, "hex"⟩, some 30⟩] := rfl
        rw [h]
        exact List.mem_singleton_self _),
   c7_timeout_applied_only_to_synthesis.2.2.2.2.1 ⟨"k", "g", "u", 30, 3⟩
      "MyVoice01" "voice_cloning" (fun _ => .timeout) _
      (by
        have h : (voice_delete_run ⟨"k", "g", "u", 30, 3⟩ "MyVoice01" "voice_cloning"
            (fun _ => .timeout)).2 =
            [⟨voice_delete_url ⟨"k", "g", "u", 30, 3⟩,
              ("MyVoice01", "voice_cloning"), none⟩] := rfl
        rw [h]
        exact List.mem_singleton_self _),
   c7_timeout_applied_only_to_synthesis.2.2.2.2.2⟩

/-- C9: max_retries is resolved and stored by APIConfig but never consulted:
every operation behaves identically under configurations differing only in
max_retries, and no operation dispatches more than one HTTP call. -/
theorem c9_max_retries_never_consulted :
    (∀ (cfg : APIConfig) (m : Int) req tr,
      t2a_run {cfg with max_retries := m} req tr = t2a_run cfg req tr ∧
      (t2a_run cfg req tr).2.length ≤ 1) ∧
    (∀ (cfg : APIConfig) (m : Int) vt tr,
      get_voice_run {cfg with max_retries := m} vt tr = get_voice_run cfg vt tr ∧
      (get_voice_run cfg vt tr).2.length ≤ 1) ∧
    (∀ (cfg : APIConfig) (m : Int) path purpose fe tr,
      file_upload_run {cfg with max_retries := m} path purpose fe tr =
        file_upload_run cfg path purpose fe tr ∧
      (file_upload_run cfg path purpose fe tr).2.length ≤ 1) ∧
    (∀ (cfg : APIConfig) (m : Int) req tr,
      voice_clone_run {cfg with max_retries := m} req tr = voice_clone_run cfg req tr ∧
      (voice_clone_run cfg req tr).2.length ≤ 1) ∧
    (∀ (cfg : APIConfig) (m : Int) vid vt tr,
      voice_delete_run {cfg with max_retries := m} vid vt tr =
        voice_delete_run cfg vid vt tr ∧
      (voice_delete_run cfg vid vt tr).2.length ≤ 1) ∧
    (∀ ak gid burl t mr eak egid cfg,
      resolve_api_config ak gid burl t mr eak egid = .ok cfg →
      cfg.max_retries = pyOrInt mr 3) := by
  refine ⟨?_, ?_, ?_, ?_, ?_, ?_⟩
  · intro cfg m req tr
    obtain ⟨a, g, b, t, r⟩ := cfg
    cases hv : validate_t2a_request req <;> simp [t2a_run, hv, t2a_url]
  · intro cfg m vt tr
    obtain ⟨a, g, b, t, r⟩ := cfg
    simp [get_voice_run, voice_list_url]
  · intro cfg m path purpose fe tr
    obtain ⟨a, g, b, t, r⟩ := cfg
    by_cases hfe : fe <;> simp [file_upload_run, hfe, upload_url]
  · intro cfg m req tr
    obtain ⟨a, g, b, t, r⟩ := cfg
    cases hv : validate_voice_clone_request req <;> simp [voice_clone_run, hv, voice_clone_url]
  · intro cfg m vid vt tr
    obtain ⟨a, g, b, t, r⟩ := cfg
    simp [voice_delete_run, voice_delete_url]
  · intro ak gid burl t mr eak egid cfg h
    unfold resolve_api_config at h
    split_ifs at h
    simp only [Except.ok.injEq] at h
    rw [← h]

/-- C9 witness: a stored max_retries of 5 and the identical-behaviour
equations at a concrete configuration and inputs. -/
theorem c9_max_retries_never_consulted_witness :
    ((⟨"k", "g", "https://api.minimax.io/v1", 30, 5⟩ : APIConfig).max_retries =
      pyOrInt (some 5) 3) ∧
    (get_voice_run {(⟨"k", "g", "u", 30, 3⟩ : APIConfig) with max_retries := 99} "all"
        (fun _ => .timeout) =
      get_voice_run ⟨"k", "g", "u", 30, 3⟩ "all" (fun _ => .timeout) ∧
      (get_voice_run ⟨"k", "g", "u", 30, 3⟩ "all" (fun _ => .timeout)).2.length ≤ 1) :=
  ⟨c9_max_retries_never_consulted.2.2.2.2.2 (some "k") (some "g") none none (some 5)
      none none ⟨"k", "g", "https://api.minimax.io/v1", 30, 5⟩ (by rfl),
   c9_max_retries_never_consulted.2.1 ⟨"k", "g", "u", 30, 3⟩ 99 "all"
      (fun _ => .timeout)⟩

/-- C10: an HTTP-200 response whose body is valid JSON but fails the response
model's schema validation makes each operation raise the raw pydantic
ValidationError, which is a distinct exception kind from APIError and
TimeoutError. -/
theorem c10_schema_mismatch_escapes_taxonomy :
    (∀ text data e, T2AResponse.fromJson data = .error e →
      submit_t2a (.response 200 text (.ok data)) = .error (.pydanticValidationErr e)) ∧
    (∀ text data e, VoiceListResponse.fromJson data = .error e →
      submit_get_voice (.response 200 text (.ok data)) =
        .error (.pydanticValidationErr e)) ∧
    (∀ text data e, FileUploadResponse.fromJson data = .error e →
      submit_file_upload (.response 200 text (.ok data)) =
        .error (.pydanticValidationErr e)) ∧
    (∀ text data e, VoiceCloneResponse.fromJson data = .error e →
      submit_voice_clone (.response 200 text (.ok data)) =
        .error (.pydanticValidationErr e)) ∧
    (∀ status text data e, VoiceDeleteResponse.fromJson data = .error e →
      submit_voice_delete (.response status text (.ok data)) =
        .error (.pydanticValidationErr e)) ∧
    (∀ e msg sc rd, PyExn.pydanticValidationErr e ≠ PyExn.apiError msg sc rd) ∧
    (∀ e msg, PyExn.pydanticValidationErr e ≠ PyExn.timeoutErr msg) := by
  refine ⟨?_, ?_, ?_, ?_, ?_, ?_, ?_⟩
  · intro text data e hp
    unfold submit_t2a submitStandard
    simp [hp]
  · intro text data e hp
    unfold submit_get_voice submitStandard
    simp [hp]
  · intro text data e hp
    unfold submit_file_upload submitStandard
    simp [hp]
  · intro text data e hp
    unfold submit_voice_clone submitStandard
    simp [hp]
  · intro status text data e hp
    unfold submit_voice_delete
    simp [hp]
  · intro e msg sc rd h
    exact PyExn.noConfusion h
  · intro e msg h
    exact PyExn.noConfusion h

/-- C10 witness: the empty JSON object is missing the first required field of
each response schema, and the raw validation error escapes unchanged. -/
theorem c10_schema_mismatch_escapes_taxonomy_witness :
    submit_t2a (.response 200 "{}" (.ok (.obj []))) =
      .error (.pydanticValidationErr "data: Field required") ∧
    submit_get_voice (.response 200 "{}" (.ok (.obj []))) =
      .error (.pydanticValidationErr "voice_slots: Field required") ∧
    submit_file_upload (.response 200 "{}" (.ok (.obj []))) =
      .error (.pydanticValidationErr "file: Field required") ∧
    submit_voice_clone (.response 200 "{}" (.ok (.obj []))) =
      .error (.pydanticValidationErr "input_sensitive: Field required") ∧
    submit_voice_delete (.response 200 "{}" (.ok (.obj []))) =
      .error (.pydanticValidationErr "voice_id: Field required") ∧
    PyExn.pydanticValidationErr "data: Field required" ≠
      PyExn.apiError "API Error" none (.obj []) :=
  ⟨c10_schema_mismatch_escapes_taxonomy.1 "{}" (.obj []) "data: Field required" (by rfl),
   c10_schema_mismatch_escapes_taxonomy.2.1 "{}" (.obj [])
     "voice_slots: Field required" (by rfl),
   c10_schema_mismatch_escapes_taxonomy.2.2.1 "{}" (.obj [])
     "file: Field required" (by rfl),
   c10_schema_mismatch_escapes_taxonomy.2.2.2.1 "{}" (.obj [])
     "input_sensitive: Field required" (by rfl),
   c10_schema_mismatch_escapes_taxonomy.2.2.2.2.1 200 "{}" (.obj [])
     "voice_id: Field required" (by rfl),
   c10_schema_mismatch_escapes_taxonomy.2.2.2.2.2.1 "data: Field required"
     "API Error" none (.obj [])⟩

-- One scheduler step preserves the semaphore bound.
theorem batch_step_running_le {cap n : Nat} {a b : BatchState n}
    (h : BatchStep cap a b) (ha : a.running.length ≤ cap) :
    b.running.length ≤ cap := by
  cases h with
  | acquire i s hmem hcap =>
    simpa using Nat.succ_le_of_lt hcap
  | finish i s hmem =>
    calc (a.running.erase i).length ≤ a.running.length :=
          (List.erase_sublist i a.running).length_le
      _ ≤ cap := ha

-- The semaphore bound is an invariant of every reachable scheduler state.
theorem batch_running_bounded (cap : Nat) {n : Nat} (s t : BatchState n)
    (hreach : BatchReach cap s t) (hs : s.running.length ≤ cap) :
    t.running.length ≤ cap := by
  induction hreach with
  | refl => exact hs
  | tail hab hbc ih => exact batch_step_running_le hbc ih

-- From any state the scheduler can run to completion when the semaphore
-- capacity is at least 1; the finished tasks are exactly the tasks that were
-- pending, running or done, whatever order they completed in.
theorem batch_completion_aux (cap : Nat) (hcap : 1 ≤ cap) {n : Nat} :
    ∀ (k : Nat) (s : BatchState n), 2 * s.pending.length + s.running.length ≤ k →
    ∃ t, BatchReach cap s t ∧ t.pending = [] ∧ t.running = [] ∧
      (t.done : Multiset (Fin n)) = ↑s.pending + ↑s.running + ↑s.done := by
  intro k
  induction k with
  | zero =>
    intro s hs
    have hp : s.pending = [] := List.length_eq_zero.mp (by omega)
    have hr : s.running = [] := List.length_eq_zero.mp (by omega)
    exact ⟨s, Relation.ReflTransGen.refl, hp, hr, by simp [hp, hr]⟩
  | succ k ih =>
    intro s hs
    cases hrun : s.running with
    | cons i rest =>
      have hmem : i ∈ s.running := by rw [hrun]; exact List.mem_cons_self i rest
      have herase : s.running.erase i = rest := by
        rw [hrun]; exact List.erase_cons_head i rest
      have hmeas : 2 * s.pending.length + (s.running.erase i).length ≤ k := by
        rw [herase]
        rw [hrun] at hs
        simp at hs
        omega
      obtain ⟨t, hreach, hp, hr, hdone⟩ :=
        ih ⟨s.pending, s.running.erase i, i :: s.done⟩ (by simpa using hmeas)
      refine ⟨t, Relation.ReflTransGen.head (BatchStep.finish i s hmem) hreach, hp, hr, ?_⟩
      rw [hdone, herase]
      dsimp only
      simp only [← Multiset.cons_coe, ← Multiset.singleton_add]
      abel
    | nil =>
      cases hpend : s.pending with
      | nil =>
        exact ⟨s, Relation.ReflTransGen.refl, hpend, hrun, by simp [hpend, hrun]⟩
      | cons i rest =>
        have hmem : i ∈ s.pending := by rw [hpend]; exact List.mem_cons_self i rest
        have hlt : s.running.length < cap := by rw [hrun]; simpa using hcap
        have herase : s.pending.erase i = rest := by
          rw [hpend]; exact List.erase_cons_head i rest
        have hmeas : 2 * (s.pending.erase i).length + (i :: s.running).length ≤ k := by
          rw [herase, hrun]
          rw [hpend, hrun] at hs
          simp at hs ⊢
          omega
        obtain ⟨t, hreach, hp, hr, hdone⟩ :=
          ih ⟨s.pending.erase i, i :: s.running, s.done⟩ (by simpa using hmeas)
        refine ⟨t, Relation.ReflTransGen.head (BatchStep.acquire i s hmem hlt) hreach,
          hp, hr, ?_⟩
        rw [hdone, herase, hrun]
        dsimp only
        simp only [← Multiset.cons_coe, ← Multiset.singleton_add]
        abel

/-- C8: batch_text_to_speech with concurrency bound cap ≥ 1 produces a list
of exactly the input length whose slot i holds the outcome (typed response or
captured exception) of request i in input order; every reachable scheduler
state keeps at most cap tasks inside the semaphore; and a completed run in
which every task finishes (in whatever order) is always reachable, so one
failing item never blocks the others. -/
theorem c8_batch_fanout_ordered_bounded :
    ∀ (cap : Nat), 1 ≤ cap →
    ∀ (cfg : APIConfig) (reqs : List T2ARequest)
      (tr : RequestSpec T2ARequest → TransportResult),
      (batch_t2a cfg reqs tr).length = reqs.length ∧
      (∀ i : Fin reqs.length,
        (batch_t2a cfg reqs tr)[(i : Nat)]? = some ((t2a_run cfg (reqs.get i) tr).1)) ∧
      (∀ s, BatchReach cap (batchInit reqs.length) s → s.running.length ≤ cap) ∧
      (∃ s, BatchReach cap (batchInit reqs.length) s ∧ s.pending = [] ∧
        s.running = [] ∧ s.done.Perm (List.finRange reqs.length)) := by
  intro cap hcap cfg reqs tr
  refine ⟨?_, ?_, ?_, ?_⟩
  · simp [batch_t2a, gatherResult]
  · intro i
    simp [batch_t2a, gatherResult, List.getElem?_ofFn, List.ofFnNthVal, i.isLt]
  · intro s hreach
    exact batch_running_bounded cap (batchInit reqs.length) s hreach (by simp [batchInit])
  · obtain ⟨t, hreach, hp, hr, hdone⟩ :=
      batch_completion_aux cap hcap (2 * reqs.length) (batchInit reqs.length)
        (by simp [batchInit])
    refine ⟨t, hreach, hp, hr, ?_⟩
    rw [← Multiset.coe_eq_coe]
    simpa [batchInit] using hdone

/-- C8 witness: 4 requests, concurrency bound 2, request #2 configured to
fail pre-flight validation: the result has length 4, slot 2 holds the
captured exception, slots 0, 1 and 3 hold the successful typed response, in
input order; the scheduler bound and completion facts instantiated at n = 4,
cap = 2. -/
theorem c8_batch_fanout_ordered_bounded_witness :
    (batch_t2a ⟨"k", "g", "u", 30, 3⟩
      [⟨"speech-02-hd", "hello", ⟨1, 1, 0, some "Wise_Woman", none, false⟩, ⟨32000, 128000, "mp3", 1⟩, false, false, "hex"⟩,
       ⟨"speech-02-hd", "hello", ⟨1, 1, 0, some "Wise_Woman", none, false⟩, ⟨32000, 128000, "mp3", 1⟩, false, false, "hex"⟩,
       ⟨"bad-model", "hello", ⟨1, 1, 0, some "Wise_Woman", none, false⟩, ⟨32000, 128000, "mp3", 1⟩, false, false, "hex"⟩,
       ⟨"speech-02-hd", "hello", ⟨1, 1, 0, some "Wise_Woman", none, false⟩, ⟨32000, 128000, "mp3", 1⟩, false, false, "hex"⟩]
      (fun _ => TransportResult.response 200 "raw" (.ok (t2aBody 0 "success")))).length = 4 ∧
    (batch_t2a ⟨"k", "g", "u", 30, 3⟩
      [⟨"speech-02-hd", "hello", ⟨1, 1, 0, some "Wise_Woman", none, false⟩, ⟨32000, 128000, "mp3", 1⟩, false, false, "hex"⟩,
       ⟨"speech-02-hd", "hello", ⟨1, 1, 0, some "Wise_Woman", none, false⟩, ⟨32000, 128000, "mp3", 1⟩, false, false, "hex"⟩,
       ⟨"bad-model", "hello", ⟨1, 1, 0, some "Wise_Woman", none, false⟩, ⟨32000, 128000, "mp3", 1⟩, false, false, "hex"⟩,
       ⟨"speech-02-hd", "hello", ⟨1, 1, 0, some "Wise_Woman", none, false⟩, ⟨32000, 128000, "mp3", 1⟩, false, false, "hex"⟩]
      (fun _ => TransportResult.response 200 "raw" (.ok (t2aBody 0 "success"))))[(2 : Nat)]? = some (.error (.valueErr ("Invalid model: " ++ "bad-model"))) ∧
    (batch_t2a ⟨"k", "g", "u", 30, 3⟩
      [⟨"speech-02-hd", "hello", ⟨1, 1, 0, some "Wise_Woman", none, false⟩, ⟨32000, 128000, "mp3", 1⟩, false, false, "hex"⟩,
       ⟨"speech-02-hd", "hello", ⟨1, 1, 0, some "Wise_Woman", none, false⟩, ⟨32000, 128000, "mp3", 1⟩, false, false, "hex"⟩,
       ⟨"bad-model", "hello", ⟨1, 1, 0, some "Wise_Woman", none, false⟩, ⟨32000, 128000, "mp3", 1⟩, false, false, "hex"⟩,
       ⟨"speech-02-hd", "hello", ⟨1, 1, 0, some "Wise_Woman", none, false⟩, ⟨32000, 128000, "mp3", 1⟩, false, false, "hex"⟩]
      (fun _ => TransportResult.response 200 "raw" (.ok (t2aBody 0 "success"))))[(0 : Nat)]? = some (.ok ⟨⟨"48656c6c6f", 1, none⟩, ⟨1000, 24000, 4000, 168000, "mp3", 1, 0, 5⟩, "trace-1", ⟨0, some "success"⟩⟩) ∧
    (batch_t2a ⟨"k", "g", "u", 30, 3⟩
      [⟨"speech-02-hd", "hello", ⟨1, 1, 0, some "Wise_Woman", none, false⟩, ⟨32000, 128000, "mp3", 1⟩, false, false, "hex"⟩,
       ⟨"speech-02-hd", "hello", ⟨1, 1, 0, some "Wise_Woman", none, false⟩, ⟨32000, 128000, "mp3", 1⟩, false, false, "hex"⟩,
       ⟨"bad-model", "hello", ⟨1, 1, 0, some "Wise_Woman", none, false⟩, ⟨32000, 128000, "mp3", 1⟩, false, false, "hex"⟩,
       ⟨"speech-02-hd", "hello", ⟨1, 1, 0, some "Wise_Woman", none, false⟩, ⟨32000, 128000, "mp3", 1⟩, false, false, "hex"⟩]
      (fun _ => TransportResult.response 200 "raw" (.ok (t2aBody 0 "success"))))[(1 : Nat)]? = some (.ok ⟨⟨"48656c6c6f", 1, none⟩, ⟨1000, 24000, 4000, 168000, "mp3", 1, 0, 5⟩, "trace-1", ⟨0, some "success"⟩⟩) ∧
    (batch_t2a ⟨"k", "g", "u", 30, 3⟩
      [⟨"speech-02-hd", "hello", ⟨1, 1, 0, some "Wise_Woman", none, false⟩, ⟨32000, 128000, "mp3", 1⟩, false, false, "hex"⟩,
       ⟨"speech-02-hd", "hello", ⟨1, 1, 0, some "Wise_Woman", none, false⟩, ⟨32000, 128000, "mp3", 1⟩, false, false, "hex"⟩,
       ⟨"bad-model", "hello", ⟨1, 1, 0, some "Wise_Woman", none, false⟩, ⟨32000, 128000, "mp3", 1⟩, false, false, "hex"⟩,
       ⟨"speech-02-hd", "hello", ⟨1, 1, 0, some "Wise_Woman", none, false⟩, ⟨32000, 128000, "mp3", 1⟩, false, false, "hex"⟩]
      (fun _ => TransportResult.response 200 "raw" (.ok (t2aBody 0 "success"))))[(3 : Nat)]? = some (.ok ⟨⟨"48656c6c6f", 1, none⟩, ⟨1000, 24000, 4000, 168000, "mp3", 1, 0, 5⟩, "trace-1", ⟨0, some "success"⟩⟩) ∧
    (∀ s, BatchReach 2 (batchInit 4) s → s.running.length ≤ 2) ∧
    (∃ s, BatchReach 2 (batchInit 4) s ∧ s.pending = [] ∧ s.running = [] ∧
      s.done.Perm (List.finRange 4)) :=
  ⟨(c8_batch_fanout_ordered_bounded 2 (by decide) ⟨"k", "g", "u", 30, 3⟩
      [⟨"speech-02-hd", "hello", ⟨1, 1, 0, some "Wise_Woman", none, false⟩, ⟨32000, 128000, "mp3", 1⟩, false, false, "hex"⟩,
       ⟨"speech-02-hd", "hello", ⟨1, 1, 0, some "Wise_Woman", none, false⟩, ⟨32000, 128000, "mp3", 1⟩, false, false, "hex"⟩,
       ⟨"bad-model", "hello", ⟨1, 1, 0, some "Wise_Woman", none, false⟩, ⟨32000, 128000, "mp3", 1⟩, false, false, "hex"⟩,
       ⟨"speech-02-hd", "hello", ⟨1, 1, 0, some "Wise_Woman", none, false⟩, ⟨32000, 128000, "mp3", 1⟩, false, false, "hex"⟩]
      (fun _ => TransportResult.response 200 "raw" (.ok (t2aBody 0 "success")))).1.trans rfl,
   ((c8_batch_fanout_ordered_bounded 2 (by decide) ⟨"k", "g", "u", 30, 3⟩
      [⟨"speech-02-hd", "hello", ⟨1, 1, 0, some "Wise_Woman", none, false⟩, ⟨32000, 128000, "mp3", 1⟩, false, false, "hex"⟩,
       ⟨"speech-02-hd", "hello", ⟨1, 1, 0, some "Wise_Woman", none, false⟩, ⟨32000, 128000, "mp3", 1⟩, false, false, "hex"⟩,
       ⟨"bad-model", "hello", ⟨1, 1, 0, some "Wise_Woman", none, false⟩, ⟨32000, 128000, "mp3", 1⟩, false, false, "hex"⟩,
       ⟨"speech-02-hd", "hello", ⟨1, 1, 0, some "Wise_Woman", none, false⟩, ⟨32000, 128000, "mp3", 1⟩, false, false, "hex"⟩]
      (fun _ => TransportResult.response 200 "raw" (.ok (t2aBody 0 "success")))).2.1 ⟨2, by decide⟩).trans (by rfl),
   ((c8_batch_fanout_ordered_bounded 2 (by decide) ⟨"k", "g", "u", 30, 3⟩
      [⟨"speech-02-hd", "hello", ⟨1, 1, 0, some "Wise_Woman", none, false⟩, ⟨32000, 128000, "mp3", 1⟩, false, false, "hex"⟩,
       ⟨"speech-02-hd", "hello", ⟨1, 1, 0, some "Wise_Woman", none, false⟩, ⟨32000, 128000, "mp3", 1⟩, false, false, "hex"⟩,
       ⟨"bad-model", "hello", ⟨1, 1, 0, some "Wise_Woman", none, false⟩, ⟨32000, 128000, "mp3", 1⟩, false, false, "hex"⟩,
       ⟨"speech-02-hd", "hello", ⟨1, 1, 0, some "Wise_Woman", none, false⟩, ⟨32000, 128000, "mp3", 1⟩, false, false, "hex"⟩]
      (fun _ => TransportResult.response 200 "raw" (.ok (t2aBody 0 "success")))).2.1 ⟨0, by decide⟩).trans (by rfl),
   ((c8_batch_fanout_ordered_bounded 2 (by decide) ⟨"k", "g", "u", 30, 3⟩
      [⟨"speech-02-hd", "hello", ⟨1, 1, 0, some "Wise_Woman", none, false⟩, ⟨32000, 128000, "mp3", 1⟩, false, false, "hex"⟩,
       ⟨"speech-02-hd", "hello", ⟨1, 1, 0, some "Wise_Woman", none, false⟩, ⟨32000, 128000, "mp3", 1⟩, false, false, "hex"⟩,
       ⟨"bad-model", "hello", ⟨1, 1, 0, some "Wise_Woman", none, false⟩, ⟨32000, 128000, "mp3", 1⟩, false, false, "hex"⟩,
       ⟨"speech-02-hd", "hello", ⟨1, 1, 0, some "Wise_Woman", none, false⟩, ⟨32000, 128000, "mp3", 1⟩, false, false, "hex"⟩]
      (fun _ => TransportResult.response 200 "raw" (.ok (t2aBody 0 "success")))).2.1 ⟨1, by decide⟩).trans (by rfl),
   ((c8_batch_fanout_ordered_bounded 2 (by decide) ⟨"k", "g", "u", 30, 3⟩
      [⟨"speech-02-hd", "hello", ⟨1, 1, 0, some "Wise_Woman", none, false⟩, ⟨32000, 128000, "mp3", 1⟩, false, false, "hex"⟩,
       ⟨"speech-02-hd", "hello", ⟨1, 1, 0, some "Wise_Woman", none, false⟩, ⟨32000, 128000, "mp3", 1⟩, false, false, "hex"⟩,
       ⟨"bad-model", "hello", ⟨1, 1, 0, some "Wise_Woman", none, false⟩, ⟨32000, 128000, "mp3", 1⟩, false, false, "hex"⟩,
       ⟨"speech-02-hd", "hello", ⟨1, 1, 0, some "Wise_Woman", none, false⟩, ⟨32000, 128000, "mp3", 1⟩, false, false, "hex"⟩]
      (fun _ => TransportResult.response 200 "raw" (.ok (t2aBody 0 "success")))).2.1 ⟨3, by decide⟩).trans (by rfl),
   (c8_batch_fanout_ordered_bounded 2 (by decide) ⟨"k", "g", "u", 30, 3⟩
      [⟨"speech-02-hd", "hello", ⟨1, 1, 0, some "Wise_Woman", none, false⟩, ⟨32000, 128000, "mp3", 1⟩, false, false, "hex"⟩,
       ⟨"speech-02-hd", "hello", ⟨1, 1, 0, some "Wise_Woman", none, false⟩, ⟨32000, 128000, "mp3", 1⟩, false, false, "hex"⟩,
       ⟨"bad-model", "hello", ⟨1, 1, 0, some "Wise_Woman", none, false⟩, ⟨32000, 128000, "mp3", 1⟩, false, false, "hex"⟩,
       ⟨"speech-02-hd", "hello", ⟨1, 1, 0, some "Wise_Woman", none, false⟩, ⟨32000, 128000, "mp3", 1⟩, false, false, "hex"⟩]
      (fun _ => TransportResult.response 200 "raw" (.ok (t2aBody 0 "success")))).2.2.1,
   (c8_batch_fanout_ordered_bounded 2 (by decide) ⟨"k", "g", "u", 30, 3⟩
      [⟨"speech-02-hd", "hello", ⟨1, 1, 0, some "Wise_Woman", none, false⟩, ⟨32000, 128000, "mp3", 1⟩, false, false, "hex"⟩,
       ⟨"speech-02-hd", "hello", ⟨1, 1, 0, some "Wise_Woman", none, false⟩, ⟨32000, 128000, "mp3", 1⟩, false, false, "hex"⟩,
       ⟨"bad-model", "hello", ⟨1, 1, 0, some "Wise_Woman", none, false⟩, ⟨32000, 128000, "mp3", 1⟩, false, false, "hex"⟩,
       ⟨"speech-02-hd", "hello", ⟨1, 1, 0, some "Wise_Woman", none, false⟩, ⟨32000, 128000, "mp3", 1⟩, false, false, "hex"⟩]
      (fun _ => TransportResult.response 200 "raw" (.ok (t2aBody 0 "success")))).2.2.2⟩
